import Mathlib

/-!
Formal model of the ajuda-inteligente-portal support front end: the intake
form validation (SupportForm) and the chat session state machine
(ChatInterface, in its CORS-reading and no-cors variants), translated from
the TypeScript source.  Strings are modelled as lists of characters,
timestamps and message ids as natural numbers drawn from the ambient clock,
and each asynchronous handler as a function from the state and the webhook
outcome to the successor state together with the list of requests it issued.
-/

namespace Portal

/-- Character class of the JavaScript whitespace escape, covering the
WhiteSpace and LineTerminator productions recognised by the trim method and
by the negated character classes of the email regex. -/
def isSpaceJS (c : Char) : Bool :=
  c.toNat == 9 || c.toNat == 10 || c.toNat == 11 || c.toNat == 12 ||
  c.toNat == 13 || c.toNat == 32 || c.toNat == 160 || c.toNat == 0x1680 ||
  (decide (0x2000 ≤ c.toNat) && decide (c.toNat ≤ 0x200A)) ||
  c.toNat == 0x2028 || c.toNat == 0x2029 || c.toNat == 0x202F ||
  c.toNat == 0x205F || c.toNat == 0x3000 || c.toNat == 0xFEFF

/-- JavaScript trim: strip whitespace from both ends of the string. -/
def trimJS (s : List Char) : List Char :=
  ((s.dropWhile isSpaceJS).reverse.dropWhile isSpaceJS).reverse

/-- Characters accepted by the bracketed class of the email regex:
anything except whitespace and the at sign. -/
def emailChar (c : Char) : Bool :=
  !(isSpaceJS c) && !(c == '@')

/-- Scan for a dot that has at least one character after it. -/
def dotBeforeEnd : List Char → Bool
  | [] => false
  | c :: rest => (c == '.' && !rest.isEmpty) || dotBeforeEnd rest

/-- A dot with at least one character on each side. -/
def hasInteriorDot : List Char → Bool
  | [] => false
  | _ :: rest => dotBeforeEnd rest

/-- Executable translation of the test of the email regex used by
validateForm: the string splits as a non-empty local part, the at sign, and
a remainder that contains a dot with accepted characters on both sides, all
parts drawn from the class excluding whitespace and the at sign.  Since the
class excludes the at sign, the local part ends at the first at sign. -/
def emailRegexTest (s : List Char) : Bool :=
  match s.dropWhile (fun c => !(c == '@')) with
  | [] => false
  | c :: t =>
      c == '@' && !(s.takeWhile (fun c => !(c == '@'))).isEmpty &&
      (s.takeWhile (fun c => !(c == '@'))).all emailChar &&
      t.all emailChar && hasInteriorDot t

/-- Denotational reading of the email regex, as the spec words it: a
local part, an at sign, a domain part, a dot and a final label, with no
whitespace and no at sign inside any part and every part non-empty. -/
def EmailShape (s : List Char) : Prop :=
  ∃ l m r, l ≠ [] ∧ m ≠ [] ∧ r ≠ [] ∧
    (∀ c ∈ l, emailChar c = true) ∧ (∀ c ∈ m, emailChar c = true) ∧
    (∀ c ∈ r, emailChar c = true) ∧ s = l ++ '@' :: (m ++ '.' :: r)

/-- The contact captured by the intake form. -/
structure FormData where
  nome : List Char
  email : List Char
  solicitacao : List Char

/-- Field-keyed error map built by validateForm. -/
structure FormErrors where
  nome : Option (List Char)
  email : Option (List Char)

def nomeObrigatorio : List Char := "Nome é obrigatório".toList

def emailObrigatorio : List Char := "E-mail é obrigatório".toList

def emailFormato : List Char := "E-mail deve ter um formato válido".toList

/-- Translation of validateForm of SupportForm: build the field-keyed error
map and succeed exactly when it has no keys. -/
def validateForm (fd : FormData) : FormErrors × Bool :=
  let eNome : Option (List Char) :=
    if trimJS fd.nome = [] then some nomeObrigatorio else none
  let eEmail : Option (List Char) :=
    if trimJS fd.email = [] then some emailObrigatorio
    else if !(emailRegexTest fd.email) then some emailFormato else none
  (⟨eNome, eEmail⟩, eNome.isNone && eEmail.isNone)

/-- JSON-like values returned by the webhook, as far as the handlers
inspect them. -/
inductive JsonVal where
  | jnull : JsonVal
  | jstr : List Char → JsonVal
  | jobj : List (List Char × JsonVal) → JsonVal

/-- JavaScript truthiness for the values above: null and the empty string
are falsy, every object is truthy. -/
def truthy : JsonVal → Bool
  | .jnull => false
  | .jstr s => !s.isEmpty
  | .jobj _ => true

/-- First binding of a key in an object literal. -/
def lookupField : List (List Char × JsonVal) → List Char → Option JsonVal
  | [], _ => none
  | (k, v) :: rest, key => if k = key then some v else lookupField rest key

/-- Property access, with an undefined result modelled as none. -/
def getField : JsonVal → List Char → Option JsonVal
  | .jobj fields, key => lookupField fields key
  | _, _ => none

def messageKey : List Char := "message".toList

def valueKey : List Char := "value".toList

/-- Content picked for an agent reply: the value field of the message when
truthy, otherwise the message itself. -/
def chooseContent (m : JsonVal) : JsonVal :=
  match getField m valueKey with
  | some v => if truthy v then v else m
  | none => m

/-- Guard and content of the agent reply appended on an ok response: the
handlers append exactly when the body and its message field are truthy. -/
def agentReply (b : JsonVal) : Option JsonVal :=
  if truthy b then
    match getField b messageKey with
    | some m => if truthy m then some (chooseContent m) else none
    | none => none
  else none

inductive Sender where
  | user : Sender
  | agent : Sender
deriving DecidableEq

/-- One entry of the transcript. -/
structure Message where
  id : Nat
  content : JsonVal
  sender : Sender
  timestamp : Nat

inductive ConnStatus where
  | connecting : ConnStatus
  | connected : ConnStatus
  | disconnected : ConnStatus
deriving DecidableEq

/-- The contact handed to the chat component by the form. -/
structure UserData where
  nome : List Char
  email : List Char
  solicitacao : List Char

/-- The mutable state of the chat component. -/
structure ChatState where
  messages : List Message
  inputMessage : List Char
  isLoading : Bool
  connectionStatus : ConnStatus
  sessionId : List Char

inductive ReqAction where
  | initialize_chat : ReqAction
  | send_message : ReqAction
deriving DecidableEq

inductive TipoMensagem where
  | inicializacao : TipoMensagem
  | usuario : TipoMensagem
deriving DecidableEq

/-- Body of a POST to the webhook, with the fields the handlers fill. -/
structure Request where
  sessionId : List Char
  action : ReqAction
  timestamp : Nat
  usuario : UserData
  tipo : TipoMensagem
  conteudo : List Char

/-- Outcome of one fetch call: either the fetch (or the later body read)
throws, or an HTTP response arrives with a status and a parsed body; a
response whose body fails to parse as JSON carries none. -/
inductive FetchOutcome where
  | netError : FetchOutcome
  | httpResponse : Nat → Option JsonVal → FetchOutcome

/-- The ok flag of a fetch response: status in the 200 to 299 range. -/
def respOk (status : Nat) : Bool :=
  decide (200 ≤ status) && decide (status ≤ 299)

def welcomeText : List Char :=
  "Olá! Sou seu assistente de IA. Como posso ajudá-lo hoje?".toList

def fallbackText : List Char :=
  "Desculpe, estou com dificuldades técnicas no momento. Tente novamente em alguns instantes.".toList

/-- Content of the initialize_chat request, assembled from the contact. -/
def initConteudo (ud : UserData) : List Char :=
  "Inicialização do chat. Dados do usuário: Nome: ".toList ++ ud.nome ++
  ", Email: ".toList ++ ud.email ++ ", Solicitação: ".toList ++ ud.solicitacao

/-- State of the chat component at mount: empty transcript, empty input,
not loading, connecting, with the generated session id. -/
def initialChatState (sid : List Char) : ChatState :=
  { messages := [], inputMessage := [], isLoading := false,
    connectionStatus := .connecting, sessionId := sid }

/-- Translation of initializeChat of ChatInterface: set the transcript to
the welcome message, post the initialize_chat request, and on an ok
response append the agent reply when the body has a truthy message field
and mark the session connected; on a non-ok status, a parse failure or a
network error mark it disconnected without touching the transcript. -/
def initializeChat (ud : UserData) (sid : List Char) (now : Nat)
    (fr : FetchOutcome) : ChatState × List Request :=
  let s1 : ChatState :=
    { initialChatState sid with
      isLoading := true,
      connectionStatus := .connecting,
      messages := [{ id := now, content := .jstr welcomeText,
                     sender := .agent, timestamp := now }] }
  let req : Request :=
    { sessionId := sid, action := .initialize_chat, timestamp := now,
      usuario := ud, tipo := .inicializacao, conteudo := initConteudo ud }
  let s2 : ChatState :=
    match fr with
    | .httpResponse status (some b) =>
        if respOk status then
          let s3 : ChatState :=
            match agentReply b with
            | some c =>
                { s1 with messages := s1.messages ++
                    [{ id := now + 1, content := c, sender := .agent,
                       timestamp := now }] }
            | none => s1
          { s3 with connectionStatus := .connected }
        else { s1 with connectionStatus := .disconnected }
    | .httpResponse _ none => { s1 with connectionStatus := .disconnected }
    | .netError => { s1 with connectionStatus := .disconnected }
  ({ s2 with isLoading := false }, [req])

/-- Translation of sendMessage of ChatInterface: ignore the submit when the
trimmed input is empty or a request is already in flight; otherwise append
the user message, clear the input, post the send_message request, and on an
ok response append the agent reply when the body has a truthy message field
and mark the session connected; on a non-ok status, a parse failure or a
network error append the fixed fallback agent message and mark it
disconnected. -/
def sendMessage (ud : UserData) (s : ChatState) (now : Nat)
    (fr : FetchOutcome) : ChatState × List Request :=
  if trimJS s.inputMessage = [] ∨ s.isLoading = true then (s, [])
  else
    let messageToSend := trimJS s.inputMessage
    let s1 : ChatState :=
      { s with
        messages := s.messages ++
          [{ id := now, content := .jstr messageToSend, sender := .user,
             timestamp := now }],
        inputMessage := [], isLoading := true }
    let req : Request :=
      { sessionId := s.sessionId, action := .send_message, timestamp := now,
        usuario := ud, tipo := .usuario, conteudo := messageToSend }
    let s2 : ChatState :=
      match fr with
      | .httpResponse status (some b) =>
          if respOk status then
            let s3 : ChatState :=
              match agentReply b with
              | some c =>
                  { s1 with messages := s1.messages ++
                      [{ id := now + 1, content := c, sender := .agent,
                         timestamp := now }] }
              | none => s1
            { s3 with connectionStatus := .connected }
          else
            { s1 with
              connectionStatus := .disconnected,
              messages := s1.messages ++
                [{ id := now + 1, content := .jstr fallbackText,
                   sender := .agent, timestamp := now }] }
      | .httpResponse _ none =>
          { s1 with
            connectionStatus := .disconnected,
            messages := s1.messages ++
              [{ id := now + 1, content := .jstr fallbackText,
                 sender := .agent, timestamp := now }] }
      | .netError =>
          { s1 with
            connectionStatus := .disconnected,
            messages := s1.messages ++
              [{ id := now + 1, content := .jstr fallbackText,
                 sender := .agent, timestamp := now }] }
    ({ s2 with isLoading := false }, [req])

/-- The fields of the keyboard event the chat input handler can consult. -/
structure KeyEvent where
  key : List Char
  shiftKey : Bool
  ctrlKey : Bool
  altKey : Bool
  metaKey : Bool

/-- Translation of handleKeyPress: whether the handler prevents the default
insertion and invokes sendMessage, which happens exactly on the Enter key
without shift; no other modifier is consulted. -/
def handleKeyPress (e : KeyEvent) : Bool :=
  e.key == "Enter".toList && !e.shiftKey

/-- User-interface events that can reach the chat state after mount:
typing in the input box, and submitting a turn, the latter carrying the
clock reading and the outcome of the fetch it triggers. -/
inductive ChatEvent where
  | typeInput : List Char → ChatEvent
  | submit : Nat → FetchOutcome → ChatEvent

/-- One event against the state: typing stores the text, submitting runs
sendMessage. -/
def chatStep (ud : UserData) (s : ChatState) :
    ChatEvent → ChatState × List Request
  | .typeInput text => ({ s with inputMessage := text }, [])
  | .submit now fr => sendMessage ud s now fr

/-- A series of events, collecting every request issued. -/
def runChat (ud : UserData) (s : ChatState) :
    List ChatEvent → ChatState × List Request
  | [] => (s, [])
  | e :: evs =>
      let p := chatStep ud s e
      let q := runChat ud p.1 evs
      (q.1, p.2 ++ q.2)

/-- A whole session: mount and initialize, then any series of events. -/
def runSession (ud : UserData) (sid : List Char) (now : Nat)
    (fr : FetchOutcome) (evs : List ChatEvent) : ChatState × List Request :=
  let p := initializeChat ud sid now fr
  let q := runChat ud p.1 evs
  (q.1, p.2 ++ q.2)

/-- Response of a fetch in no-cors mode: the fields exist but the handler
never reads them. -/
structure OpaqueResponse where
  status : Nat
  body : Option JsonVal

/-- Welcome text of the no-cors variant, assembled from the contact name. -/
def welcomeTextNC (ud : UserData) : List Char :=
  "Olá ".toList ++ ud.nome ++
  "! Recebi sua solicitação e estou aqui para ajudá-lo. Como posso auxiliá-lo hoje?".toList

def simulatedReplyText : List Char :=
  "Mensagem recebida! Estou processando sua solicitação. Verifique o histórico do seu webhook N8N para confirmar o recebimento.".toList

/-- Translation of initializeChat of the no-cors variant: post the request
and mark the session connected whenever the fetch does not throw, without
reading the response; mark it disconnected when it throws. -/
def initializeChatNC (ud : UserData) (sid : List Char) (now : Nat)
    (fetchThrows : Bool) (resp : OpaqueResponse) : ChatState × List Request :=
  let s1 : ChatState :=
    { initialChatState sid with
      isLoading := true,
      connectionStatus := .connecting,
      messages := [{ id := now, content := .jstr (welcomeTextNC ud),
                     sender := .agent, timestamp := now }] }
  let req : Request :=
    { sessionId := sid, action := .initialize_chat, timestamp := now,
      usuario := ud, tipo := .inicializacao, conteudo := initConteudo ud }
  if fetchThrows then
    ({ s1 with connectionStatus := .disconnected, isLoading := false }, [req])
  else
    ({ s1 with connectionStatus := .connected, isLoading := false }, [req])

/-- Translation of sendMessage of the no-cors variant: ignore the submit
when the trimmed input is empty or a request is in flight; otherwise append
the user message carrying the untrimmed input text, clear the input and
post the request with the untrimmed text.  When the fetch does not throw,
mark the session connected and schedule the fixed simulated agent reply two
thousand milliseconds later, never reading the response; the returned
number is the scheduled delay.  When the fetch throws, append the fixed
fallback message and mark the session disconnected. -/
def sendMessageNC (ud : UserData) (s : ChatState) (now : Nat)
    (fetchThrows : Bool) (resp : OpaqueResponse) :
    ChatState × List Request × Option Nat :=
  if trimJS s.inputMessage = [] ∨ s.isLoading = true then (s, [], none)
  else
    let s1 : ChatState :=
      { s with
        messages := s.messages ++
          [{ id := now, content := .jstr s.inputMessage, sender := .user,
             timestamp := now }],
        inputMessage := [], isLoading := true }
    let req : Request :=
      { sessionId := s.sessionId, action := .send_message, timestamp := now,
        usuario := ud, tipo := .usuario, conteudo := s.inputMessage }
    if fetchThrows then
      ({ s1 with
         connectionStatus := .disconnected,
         isLoading := false,
         messages := s1.messages ++
           [{ id := now + 1, content := .jstr fallbackText, sender := .agent,
              timestamp := now }] }, [req], none)
    else
      ({ s1 with
         connectionStatus := .connected,
         isLoading := false,
         messages := s1.messages ++
           [{ id := now + 1, content := .jstr simulatedReplyText,
              sender := .agent, timestamp := now }] }, [req], some 2000)

/-- Concrete contact used to exercise the handlers on closed inputs. -/
def udEx : UserData :=
  { nome := "Ana".toList, email := "ana@ex.com".toList, solicitacao := [] }

/-- Concrete idle chat state with pending input and no request in flight. -/
def sEx : ChatState :=
  { messages := [], inputMessage := "help".toList, isLoading := false,
    connectionStatus := .connected, sessionId := "session_1".toList }

/-- Concrete chat state with a request still in flight. -/
def sBusy : ChatState :=
  { messages := [], inputMessage := "oi".toList, isLoading := true,
    connectionStatus := .connected, sessionId := "session_1".toList }

/-- Concrete chat state whose input is only whitespace. -/
def sBlank : ChatState :=
  { messages := [], inputMessage := "   ".toList, isLoading := false,
    connectionStatus := .connected, sessionId := "session_1".toList }

/-- Response body holding the reply text under the output key, the shape
claim C5 posits. -/
def outputHiBody : JsonVal :=
  .jobj [("output".toList, .jstr "hi".toList)]

/-- Response body holding the reply text under the message key, the shape
the handlers actually read. -/
def messageHiBody : JsonVal :=
  .jobj [(messageKey, .jstr "hi".toList)]

lemma dotBeforeEnd_iff (u : List Char) :
    dotBeforeEnd u = true ↔ ∃ a b, b ≠ [] ∧ u = a ++ '.' :: b := by
  induction u with
  | nil =>
    simp [dotBeforeEnd]
  | cons c rest ih =>
    simp only [dotBeforeEnd, Bool.or_eq_true, Bool.and_eq_true, ih]
    constructor
    · rintro (⟨hc, hne⟩ | ⟨a, b, hb, rfl⟩)
      · refine ⟨[], rest, ?_, ?_⟩
        · intro h
          subst h
          simp at hne
        · have : c = '.' := by simpa using hc
          subst this
          rfl
      · exact ⟨c :: a, b, hb, rfl⟩
    · rintro ⟨a, b, hb, he⟩
      cases a with
      | nil =>
        simp at he
        left
        constructor
        · simp [he.1]
        · have : rest = b := he.2
          subst this
          simpa using hb
      | cons a0 a' =>
        right
        simp at he
        exact ⟨a', b, hb, he.2⟩

lemma takeWhile_dropWhile_split (p : Char → Bool) (l t : List Char) (c : Char)
    (hl : ∀ x ∈ l, p x = true) (hc : p c = false) :
    (l ++ c :: t).takeWhile p = l ∧ (l ++ c :: t).dropWhile p = c :: t := by
  induction l with
  | nil =>
    simp [List.takeWhile_cons, List.dropWhile_cons, hc]
  | cons a l' ih =>
    have ha : p a = true := hl a (by simp)
    have ih' := ih (fun x hx => hl x (by simp [hx]))
    simp [List.takeWhile_cons, List.dropWhile_cons, ha, ih'.1, ih'.2]

lemma emailRegexTest_iff (s : List Char) :
    emailRegexTest s = true ↔ EmailShape s := by
  constructor
  · intro h
    unfold emailRegexTest at h
    rcases hd : s.dropWhile (fun c => !(c == '@')) with _ | ⟨c0, t⟩
    · rw [hd] at h
      simp at h
    · rw [hd] at h
      simp only [Bool.and_eq_true, beq_iff_eq] at h
      obtain ⟨⟨⟨⟨hc0, hne⟩, hall⟩, htall⟩, hdot⟩ := h
      subst hc0
      have hsplit : s.takeWhile (fun c => !(c == '@')) ++
          s.dropWhile (fun c => !(c == '@')) = s :=
        List.takeWhile_append_dropWhile (fun c => !(c == '@')) s
      cases ht : t with
      | nil =>
        rw [ht] at hdot
        simp [hasInteriorDot] at hdot
      | cons t0 trest =>
        rw [ht] at hdot
        have hdb : dotBeforeEnd trest = true := hdot
        obtain ⟨a, b, hb, hrest⟩ := (dotBeforeEnd_iff trest).mp hdb
        refine ⟨s.takeWhile (fun c => !(c == '@')), t0 :: a, b, ?_, by simp, hb,
          ?_, ?_, ?_, ?_⟩
        · intro hnil
          rw [hnil] at hne
          simp at hne
        · exact fun c hc => (List.all_eq_true.mp hall) c hc
        · intro c hc
          apply List.all_eq_true.mp htall
          rw [ht, hrest]
          rcases List.mem_cons.mp hc with h1 | h2
          · simp [h1]
          · simp [h2]
        · intro c hc
          apply List.all_eq_true.mp htall
          rw [ht, hrest]
          simp [hc]
        · have h1 : s = s.takeWhile (fun c => !(c == '@')) ++ '@' :: t := by
            conv_lhs => rw [← hsplit, hd]
          subst hrest
          subst ht
          exact h1.trans (by simp)
  · rintro ⟨l, m, r, hl, hm, hr, hlc, hmc, hrc, rfl⟩
    unfold emailRegexTest
    have hp : ∀ x ∈ l, (fun c => !(c == '@')) x = true := by
      intro x hx
      have hx' := hlc x hx
      unfold emailChar at hx'
      simp only [Bool.and_eq_true] at hx'
      simpa using hx'.2
    have hat : (fun c => !(c == '@')) '@' = false := by simp
    obtain ⟨htw, hdw⟩ :=
      takeWhile_dropWhile_split (fun c => !(c == '@')) l (m ++ '.' :: r) '@' hp hat
    rw [hdw, htw]
    simp only [Bool.and_eq_true, beq_iff_eq]
    refine ⟨⟨⟨⟨trivial, ?_⟩, ?_⟩, ?_⟩, ?_⟩
    · simpa using hl
    · exact List.all_eq_true.mpr hlc
    · apply List.all_eq_true.mpr
      intro c hc
      rcases List.mem_append.mp hc with h1 | h2
      · exact hmc c h1
      · rcases List.mem_cons.mp h2 with h3 | h4
        · subst h3
          decide
        · exact hrc c h4
    · cases m with
      | nil => exact absurd rfl hm
      | cons m0 m' =>
        show hasInteriorDot (m0 :: (m' ++ '.' :: r)) = true
        show dotBeforeEnd (m' ++ '.' :: r) = true
        exact (dotBeforeEnd_iff _).mpr ⟨m', r, hr, rfl⟩

lemma dropWhile_all_false (p : Char → Bool) (s : List Char)
    (h : ∀ c ∈ s, p c = false) : s.dropWhile p = s := by
  cases s with
  | nil => rfl
  | cons c rest => simp [List.dropWhile_cons, h c (by simp)]

lemma trimJS_eq_self (s : List Char)
    (h : ∀ c ∈ s, isSpaceJS c = false) : trimJS s = s := by
  unfold trimJS
  rw [dropWhile_all_false _ _ h]
  rw [dropWhile_all_false _ _ (fun c hc => h c (by simpa using hc))]
  exact List.reverse_reverse s

lemma emailShape_no_space (s : List Char) (h : EmailShape s) :
    (∀ c ∈ s, isSpaceJS c = false) ∧ s ≠ [] := by
  obtain ⟨l, m, r, hl, hm, hr, hlc, hmc, hrc, rfl⟩ := h
  constructor
  · intro c hc
    have hchar : emailChar c = true ∨ c = '@' ∨ c = '.' := by
      rcases List.mem_append.mp hc with h1 | h2
      · exact Or.inl (hlc c h1)
      · rcases List.mem_cons.mp h2 with h3 | h4
        · exact Or.inr (Or.inl h3)
        · rcases List.mem_append.mp h4 with h5 | h6
          · exact Or.inl (hmc c h5)
          · rcases List.mem_cons.mp h6 with h7 | h8
            · exact Or.inr (Or.inr h7)
            · exact Or.inl (hrc c h8)
    rcases hchar with h1 | h2 | h3
    · unfold emailChar at h1
      simp only [Bool.and_eq_true] at h1
      simpa using h1.1
    · subst h2
      decide
    · subst h3
      decide
  · cases l with
    | nil => exact absurd rfl hl
    | cons a l' => simp

/-- C1: the intake form's submit validation succeeds iff the name is
non-empty after trimming and the email is non-empty and splits as
local part, at sign, domain, dot and final label with no whitespace and no
at sign inside any part; the optional request text never affects the
outcome. -/
theorem c1_submit_validation_iff (fd : FormData) :
    ((validateForm fd).2 = true ↔
      trimJS fd.nome ≠ [] ∧ fd.email ≠ [] ∧ EmailShape fd.email) ∧
    ∀ x, validateForm { fd with solicitacao := x } = validateForm fd := by
  constructor
  · by_cases hn : trimJS fd.nome = []
    · simp [validateForm, hn]
    · by_cases he : trimJS fd.email = []
      · simp only [validateForm, if_neg hn, if_pos he]
        constructor
        · intro h
          simp at h
        · rintro ⟨hn', hmail, hshape⟩
          exfalso
          obtain ⟨hns, hne⟩ := emailShape_no_space _ hshape
          rw [trimJS_eq_self _ hns] at he
          exact hne he
      · simp only [validateForm, if_neg hn, if_neg he]
        by_cases ht : emailRegexTest fd.email = true
        · have hshape := (emailRegexTest_iff fd.email).mp ht
          simp [ht, hn, hshape, (emailShape_no_space _ hshape).2]
        · simp only [Bool.not_eq_true] at ht
          simp [ht, hn]
          intro hmail hshape
          have hcontra := (emailRegexTest_iff fd.email).mpr hshape
          rw [ht] at hcontra
          exact Bool.false_ne_true hcontra
  · intro x
    rfl

lemma exists_append_pair (a b c : List Message) :
    ∃ t, (a ++ b) ++ c = a ++ t :=
  ⟨b ++ c, by rw [List.append_assoc]⟩

lemma exists_append_one (a b : List Message) : ∃ t, a ++ b = a ++ t :=
  ⟨b, rfl⟩

lemma sendMessage_append (ud : UserData) (s : ChatState) (now : Nat)
    (fr : FetchOutcome) :
    ∃ t, (sendMessage ud s now fr).1.messages = s.messages ++ t := by
  unfold sendMessage
  split
  · exact ⟨[], by simp⟩
  · rcases fr with _ | ⟨status, _ | b⟩
    · exact exists_append_pair _ _ _
    · exact exists_append_pair _ _ _
    · dsimp only
      split
      · rcases har : agentReply b with _ | c
        · simp only [har]
          exact exists_append_one _ _
        · simp only [har]
          exact exists_append_pair _ _ _
      · exact exists_append_pair _ _ _

lemma chatStep_append (ud : UserData) (s : ChatState) (e : ChatEvent) :
    ∃ t, (chatStep ud s e).1.messages = s.messages ++ t := by
  cases e with
  | typeInput text => exact ⟨[], by simp [chatStep]⟩
  | submit now fr => exact sendMessage_append ud s now fr

lemma runChat_append (ud : UserData) (s : ChatState) (evs : List ChatEvent) :
    ∃ t, (runChat ud s evs).1.messages = s.messages ++ t := by
  induction evs generalizing s with
  | nil => exact ⟨[], by simp [runChat]⟩
  | cons e evs ih =>
    obtain ⟨t1, h1⟩ := chatStep_append ud s e
    obtain ⟨t2, h2⟩ := ih (chatStep ud s e).1
    refine ⟨t1 ++ t2, ?_⟩
    show (runChat ud (chatStep ud s e).1 evs).1.messages = _
    rw [h2, h1, List.append_assoc]

lemma sendMessageNC_append (ud : UserData) (s : ChatState) (now : Nat)
    (th : Bool) (r : OpaqueResponse) :
    ∃ t, (sendMessageNC ud s now th r).1.messages = s.messages ++ t := by
  unfold sendMessageNC
  split
  · exact ⟨[], by simp⟩
  · cases th
    · exact exists_append_pair _ _ _
    · exact exists_append_pair _ _ _

/-- C2: across initialization and any series of typing and submit events,
in the CORS-reading variant as well as in the no-cors send handler, the
transcript is append-only: every successor transcript extends the previous
one on the right, so its length never decreases and the content and order
of the earlier entries are untouched. -/
theorem c2_messages_append_only :
    (∀ ud sid now fr, ∃ t,
      (initializeChat ud sid now fr).1.messages =
        (initialChatState sid).messages ++ t) ∧
    (∀ ud s e, ∃ t, (chatStep ud s e).1.messages = s.messages ++ t) ∧
    (∀ ud s evs, ∃ t, (runChat ud s evs).1.messages = s.messages ++ t) ∧
    (∀ ud s evs,
      s.messages.length ≤ (runChat ud s evs).1.messages.length) ∧
    (∀ ud s now th r, ∃ t,
      (sendMessageNC ud s now th r).1.messages = s.messages ++ t) := by
  refine ⟨?_, chatStep_append, runChat_append, ?_, sendMessageNC_append⟩
  · intro ud sid now fr
    refine ⟨(initializeChat ud sid now fr).1.messages, ?_⟩
    simp [initialChatState]
  · intro ud s evs
    obtain ⟨t, h⟩ := runChat_append ud s evs
    rw [h]
    simp

lemma sendMessage_sessionId (ud : UserData) (s : ChatState) (now : Nat)
    (fr : FetchOutcome) :
    (sendMessage ud s now fr).1.sessionId = s.sessionId ∧
    ∀ r ∈ (sendMessage ud s now fr).2, r.sessionId = s.sessionId := by
  unfold sendMessage
  split
  · exact ⟨rfl, by simp⟩
  · rcases fr with _ | ⟨status, _ | b⟩
    · exact ⟨rfl, by simp⟩
    · exact ⟨rfl, by simp⟩
    · dsimp only
      constructor
      · split
        · rcases har : agentReply b with _ | c <;> simp [har]
        · rfl
      · simp

lemma chatStep_sessionId (ud : UserData) (s : ChatState) (e : ChatEvent) :
    (chatStep ud s e).1.sessionId = s.sessionId ∧
    ∀ r ∈ (chatStep ud s e).2, r.sessionId = s.sessionId := by
  cases e with
  | typeInput text => exact ⟨rfl, by simp [chatStep]⟩
  | submit now fr => exact sendMessage_sessionId ud s now fr

lemma runChat_sessionId (ud : UserData) (s : ChatState) (evs : List ChatEvent) :
    (runChat ud s evs).1.sessionId = s.sessionId ∧
    ∀ r ∈ (runChat ud s evs).2, r.sessionId = s.sessionId := by
  induction evs generalizing s with
  | nil => exact ⟨rfl, by simp [runChat]⟩
  | cons e evs ih =>
    obtain ⟨h1, h2⟩ := chatStep_sessionId ud s e
    obtain ⟨h3, h4⟩ := ih (chatStep ud s e).1
    constructor
    · show (runChat ud (chatStep ud s e).1 evs).1.sessionId = _
      rw [h3, h1]
    · intro r hr
      show r.sessionId = s.sessionId
      have : (runChat ud s (e :: evs)).2 =
          (chatStep ud s e).2 ++ (runChat ud (chatStep ud s e).1 evs).2 := rfl
      rw [this] at hr
      rcases List.mem_append.mp hr with h | h
      · exact h2 r h
      · rw [h4 r h, h1]

lemma initializeChat_sessionId (ud : UserData) (sid : List Char) (now : Nat)
    (fr : FetchOutcome) :
    (initializeChat ud sid now fr).1.sessionId = sid ∧
    ∀ r ∈ (initializeChat ud sid now fr).2, r.sessionId = sid := by
  unfold initializeChat
  rcases fr with _ | ⟨status, _ | b⟩
  · exact ⟨rfl, by simp [initialChatState]⟩
  · exact ⟨rfl, by simp [initialChatState]⟩
  · dsimp only
    constructor
    · split
      · rcases har : agentReply b with _ | c <;>
          simp [har, initialChatState]
      · simp [initialChatState]
    · simp

/-- C3: the session identifier handed to the component at creation never
changes: after initialization and any series of events the state still
carries it, and every request issued during the whole session, the
initialize_chat request and every send_message request alike, carries that
same identifier in its body. -/
theorem c3_sessionId_generated_once :
    ∀ ud sid now fr evs,
      (runSession ud sid now fr evs).1.sessionId = sid ∧
      ∀ r ∈ (runSession ud sid now fr evs).2, r.sessionId = sid := by
  intro ud sid now fr evs
  obtain ⟨h1, h2⟩ := initializeChat_sessionId ud sid now fr
  obtain ⟨h3, h4⟩ := runChat_sessionId ud (initializeChat ud sid now fr).1 evs
  constructor
  · show (runChat ud (initializeChat ud sid now fr).1 evs).1.sessionId = sid
    rw [h3, h1]
  · intro r hr
    have : (runSession ud sid now fr evs).2 =
        (initializeChat ud sid now fr).2 ++
        (runChat ud (initializeChat ud sid now fr).1 evs).2 := rfl
    rw [this] at hr
    rcases List.mem_append.mp hr with h | h
    · exact h2 r h
    · rw [h4 r h, h1]

/-- C4: when the webhook answers a send_message request with a non-success
status, sendMessage appends the optimistic user message and then exactly
one fallback agent message with the fixed technical-difficulty text, marks
the session disconnected, and issues exactly one request, with no retry. -/
theorem c4_send_failure_fallback (ud : UserData) (s : ChatState)
    (now status : Nat) (body : Option JsonVal)
    (hne : trimJS s.inputMessage ≠ []) (hld : s.isLoading = false)
    (hst : respOk status = false) :
    (sendMessage ud s now (.httpResponse status body)).1.messages =
      s.messages ++
        [{ id := now, content := .jstr (trimJS s.inputMessage),
           sender := .user, timestamp := now },
         { id := now + 1, content := .jstr fallbackText, sender := .agent,
           timestamp := now }] ∧
    (sendMessage ud s now (.httpResponse status body)).1.connectionStatus =
      ConnStatus.disconnected ∧
    (sendMessage ud s now (.httpResponse status body)).2 =
      [{ sessionId := s.sessionId, action := .send_message, timestamp := now,
         usuario := ud, tipo := .usuario,
         conteudo := trimJS s.inputMessage }] := by
  unfold sendMessage
  rw [if_neg (by simp [hne, hld])]
  cases body with
  | none => simp
  | some b => simp [hst]

/-- C4 witness: the failure behaviour at a concrete state, a concrete
contact and a 500 response. -/
theorem c4_send_failure_fallback_witness :
    trimJS sEx.inputMessage ≠ [] ∧ sEx.isLoading = false ∧
    respOk 500 = false ∧
    ((sendMessage udEx sEx 7 (.httpResponse 500 (some (.jobj [])))).1.messages =
      sEx.messages ++
        [{ id := 7, content := .jstr (trimJS sEx.inputMessage),
           sender := .user, timestamp := 7 },
         { id := 7 + 1, content := .jstr fallbackText, sender := .agent,
           timestamp := 7 }] ∧
     (sendMessage udEx sEx 7
        (.httpResponse 500 (some (.jobj [])))).1.connectionStatus =
      ConnStatus.disconnected ∧
     (sendMessage udEx sEx 7 (.httpResponse 500 (some (.jobj [])))).2 =
      [{ sessionId := sEx.sessionId, action := .send_message, timestamp := 7,
         usuario := udEx, tipo := .usuario,
         conteudo := trimJS sEx.inputMessage }]) :=
  ⟨by decide, rfl, by decide,
    c4_send_failure_fallback udEx sEx 7 500 (some (.jobj []))
      (by decide) rfl (by decide)⟩

/-- C5 counterexample: with an ok response whose JSON body is the object
with output "hi", sendMessage appends no agent message at all: the
transcript gains only the user message, while the session is marked
connected, refuting the claimed appended agent message with text "hi". -/
theorem c5_counterexample_output_ignored :
    (sendMessage udEx sEx 3
        (.httpResponse 200 (some outputHiBody))).1.messages =
      [{ id := 3, content := .jstr "help".toList, sender := .user,
         timestamp := 3 }] ∧
    (sendMessage udEx sEx 3
        (.httpResponse 200 (some outputHiBody))).1.connectionStatus =
      ConnStatus.connected := by
  constructor <;> rfl

/-- C5 amended: with an ok response whose JSON body carries the reply text
in the message field, the field the handlers read, sendMessage appends
exactly one agent message with that text and marks the session connected;
a body carrying the text only under output appends nothing. -/
theorem c5_message_field_reply (ud : UserData) (s : ChatState)
    (now status : Nat) (txt : List Char)
    (hne : trimJS s.inputMessage ≠ []) (hld : s.isLoading = false)
    (hok : respOk status = true) (htxt : txt ≠ []) :
    (sendMessage ud s now
        (.httpResponse status (some (.jobj [(messageKey, .jstr txt)])))).1.messages =
      s.messages ++
        [{ id := now, content := .jstr (trimJS s.inputMessage),
           sender := .user, timestamp := now },
         { id := now + 1, content := .jstr txt, sender := .agent,
           timestamp := now }] ∧
    (sendMessage ud s now
        (.httpResponse status (some (.jobj [(messageKey, .jstr txt)])))).1.connectionStatus =
      ConnStatus.connected := by
  have har : agentReply (.jobj [(messageKey, .jstr txt)]) = some (.jstr txt) := by
    cases txt with
    | nil => exact absurd rfl htxt
    | cons a t => rfl
  unfold sendMessage
  rw [if_neg (by simp [hne, hld])]
  simp [hok, har]

/-- C5 witness for the amended statement: reply text hi at a concrete
state, a concrete contact and a 200 response. -/
theorem c5_message_field_reply_witness :
    trimJS sEx.inputMessage ≠ [] ∧ sEx.isLoading = false ∧
    respOk 200 = true ∧ "hi".toList ≠ [] ∧
    ((sendMessage udEx sEx 3
        (.httpResponse 200 (some (.jobj [(messageKey, .jstr "hi".toList)])))).1.messages =
      sEx.messages ++
        [{ id := 3, content := .jstr (trimJS sEx.inputMessage),
           sender := .user, timestamp := 3 },
         { id := 3 + 1, content := .jstr "hi".toList, sender := .agent,
           timestamp := 3 }] ∧
     (sendMessage udEx sEx 3
        (.httpResponse 200 (some (.jobj [(messageKey, .jstr "hi".toList)])))).1.connectionStatus =
      ConnStatus.connected) :=
  ⟨by decide, rfl, by decide, by decide,
    c5_message_field_reply udEx sEx 3 200 "hi".toList
      (by decide) rfl (by decide) (by decide)⟩

lemma exists_cons_append_pair (a : List Message) (u : Message)
    (c : List Message) : ∃ t, (a ++ [u]) ++ c = a ++ u :: t :=
  ⟨c, by simp⟩

lemma exists_cons_append_one (a : List Message) (u : Message) :
    ∃ t, a ++ [u] = a ++ u :: t :=
  ⟨[], by simp⟩

/-- C6 counterexample: with a non-empty trimmed input but a request still
in flight, sendMessage returns the state unchanged and issues no request:
the submit is dropped, refuting the claim that a send submitted while an
earlier request is still in flight is still sent. -/
theorem c6_counterexample_inflight_dropped :
    trimJS sBusy.inputMessage ≠ [] ∧
    sendMessage udEx sBusy 4 (.httpResponse 200 (some messageHiBody)) =
      (sBusy, []) := by
  constructor
  · decide
  · rfl

/-- C6 amended: with non-empty trimmed input and no request in flight,
submitting appends the user message and issues exactly one send_message
request regardless of the connection status, which never blocks sending;
a submit made while a request is in flight, however, is ignored. -/
theorem c6_send_appends_and_posts (ud : UserData) (s : ChatState)
    (now : Nat) (fr : FetchOutcome)
    (hne : trimJS s.inputMessage ≠ []) (hld : s.isLoading = false) :
    (∃ t, (sendMessage ud s now fr).1.messages =
      s.messages ++
        { id := now, content := .jstr (trimJS s.inputMessage),
          sender := .user, timestamp := now } :: t) ∧
    (sendMessage ud s now fr).2 =
      [{ sessionId := s.sessionId, action := .send_message, timestamp := now,
         usuario := ud, tipo := .usuario,
         conteudo := trimJS s.inputMessage }] ∧
    ∀ cs, sendMessage ud { s with connectionStatus := cs } now fr =
      sendMessage ud s now fr := by
  refine ⟨?_, ?_, ?_⟩
  · unfold sendMessage
    rw [if_neg (by simp [hne, hld])]
    rcases fr with _ | ⟨status, _ | b⟩
    · exact exists_cons_append_pair _ _ _
    · exact exists_cons_append_pair _ _ _
    · dsimp only
      split
      · rcases har : agentReply b with _ | c
        · simp only [har]
          exact exists_cons_append_one _ _
        · simp only [har]
          exact exists_cons_append_pair _ _ _
      · exact exists_cons_append_pair _ _ _
  · unfold sendMessage
    rw [if_neg (by simp [hne, hld])]
  · intro cs
    unfold sendMessage
    rw [if_neg (by simp [hne, hld]), if_neg (by simp [hne, hld])]
    rcases fr with _ | ⟨status, _ | b⟩
    · rfl
    · rfl
    · dsimp only
      by_cases hok : respOk status = true
      · rw [if_pos hok, if_pos hok]
        rcases har : agentReply b with _ | c <;> simp [har]
      · rw [if_neg hok, if_neg hok]

/-- C6 witness for the amended statement: a concrete idle state accepts the
submit, posts one request, and the behaviour is the same from every
connection status. -/
theorem c6_send_appends_and_posts_witness :
    trimJS sEx.inputMessage ≠ [] ∧ sEx.isLoading = false ∧
    ((∃ t, (sendMessage udEx sEx 9 FetchOutcome.netError).1.messages =
      sEx.messages ++
        { id := 9, content := .jstr (trimJS sEx.inputMessage),
          sender := .user, timestamp := 9 } :: t) ∧
    (sendMessage udEx sEx 9 FetchOutcome.netError).2 =
      [{ sessionId := sEx.sessionId, action := .send_message, timestamp := 9,
         usuario := udEx, tipo := .usuario,
         conteudo := trimJS sEx.inputMessage }] ∧
    ∀ cs, sendMessage udEx { sEx with connectionStatus := cs } 9
        FetchOutcome.netError =
      sendMessage udEx sEx 9 FetchOutcome.netError) :=
  ⟨by decide, rfl,
    c6_send_appends_and_posts udEx sEx 9 FetchOutcome.netError
      (by decide) rfl⟩

/-- C7 counterexample: an Enter press with ctrl held and shift not held
still triggers send, refuting the claim that every modifier key suppresses
the send and yields a literal newline. -/
theorem c7_counterexample_ctrl_enter_sends :
    handleKeyPress
      { key := "Enter".toList, shiftKey := false, ctrlKey := true,
        altKey := false, metaKey := false } = true := by
  rfl

/-- C7 amended: the handler triggers send exactly on an Enter press with
shift not held; ctrl, alt and meta are never consulted, so Enter with those
modifiers still sends, and only shift plus Enter is left to the default
newline insertion. -/
theorem c7_enter_sends_unless_shift (e : KeyEvent) :
    handleKeyPress e = true ↔ e.key = "Enter".toList ∧ e.shiftKey = false := by
  unfold handleKeyPress
  simp [Bool.and_eq_true]

/-- C8: with empty or whitespace-only input, sendMessage is a no-op: the
state, the transcript, the input field and the connection status are
returned unchanged and no request is issued, whatever the webhook would
have answered. -/
theorem c8_blank_input_noop (ud : UserData) (s : ChatState) (now : Nat)
    (fr : FetchOutcome) (h : trimJS s.inputMessage = []) :
    sendMessage ud s now fr = (s, []) := by
  unfold sendMessage
  rw [if_pos (Or.inl h)]

/-- C8 witness: the no-op at a concrete whitespace-only state. -/
theorem c8_blank_input_noop_witness :
    trimJS sBlank.inputMessage = [] ∧
    sendMessage udEx sBlank 6 FetchOutcome.netError = (sBlank, []) :=
  ⟨by decide, c8_blank_input_noop udEx sBlank 6 FetchOutcome.netError
    (by decide)⟩

/-- C9: an ok response whose well-formed body lacks a truthy message field
is connected silence: initializeChat keeps the transcript at just the
welcome message and marks the session connected, and sendMessage keeps it
at the appended user message and marks it connected, neither appending any
response-derived agent message. -/
theorem c9_success_without_message_silent (ud : UserData) (sid : List Char)
    (s : ChatState) (now status : Nat) (b : JsonVal)
    (hok : respOk status = true) (hmsg : agentReply b = none) :
    ((initializeChat ud sid now (.httpResponse status (some b))).1.messages =
        [{ id := now, content := .jstr welcomeText, sender := .agent,
           timestamp := now }] ∧
      (initializeChat ud sid now
          (.httpResponse status (some b))).1.connectionStatus =
        ConnStatus.connected) ∧
    (trimJS s.inputMessage ≠ [] → s.isLoading = false →
      (sendMessage ud s now (.httpResponse status (some b))).1.messages =
        s.messages ++
          [{ id := now, content := .jstr (trimJS s.inputMessage),
             sender := .user, timestamp := now }] ∧
      (sendMessage ud s now
          (.httpResponse status (some b))).1.connectionStatus =
        ConnStatus.connected) := by
  constructor
  · unfold initializeChat
    simp [hok, hmsg, initialChatState]
  · intro hne hld
    unfold sendMessage
    rw [if_neg (by simp [hne, hld])]
    simp [hok, hmsg]

/-- C9 witness: connected silence at a concrete state for the body whose
only field is output with text hi. -/
theorem c9_success_without_message_silent_witness :
    respOk 200 = true ∧ agentReply outputHiBody = none ∧
    trimJS sEx.inputMessage ≠ [] ∧ sEx.isLoading = false ∧
    (((initializeChat udEx "session_1".toList 2
          (.httpResponse 200 (some outputHiBody))).1.messages =
        [{ id := 2, content := .jstr welcomeText, sender := .agent,
           timestamp := 2 }] ∧
      (initializeChat udEx "session_1".toList 2
          (.httpResponse 200 (some outputHiBody))).1.connectionStatus =
        ConnStatus.connected) ∧
     ((sendMessage udEx sEx 2
          (.httpResponse 200 (some outputHiBody))).1.messages =
        sEx.messages ++
          [{ id := 2, content := .jstr (trimJS sEx.inputMessage),
             sender := .user, timestamp := 2 }] ∧
      (sendMessage udEx sEx 2
          (.httpResponse 200 (some outputHiBody))).1.connectionStatus =
        ConnStatus.connected)) := by
  refine ⟨by decide, rfl, by decide, rfl, ?_⟩
  have h := c9_success_without_message_silent udEx "session_1".toList sEx
    2 200 outputHiBody (by decide) rfl
  exact ⟨h.1, h.2 (by decide) rfl⟩

/-- C10: in the no-cors variant, a send of non-empty input whose fetch does
not throw marks the session connected and appends, with a scheduled delay
of 2000 milliseconds, exactly one agent message carrying the fixed
simulated reply text after the user message; the handler never reads the
response, so the result is identical for any two responses the webhook
returns. -/
theorem c10_nocors_simulated_reply (ud : UserData) (s : ChatState)
    (now : Nat) (r1 r2 : OpaqueResponse)
    (hne : trimJS s.inputMessage ≠ []) (hld : s.isLoading = false) :
    (sendMessageNC ud s now false r1).1.messages =
      s.messages ++
        [{ id := now, content := .jstr s.inputMessage, sender := .user,
           timestamp := now },
         { id := now + 1, content := .jstr simulatedReplyText,
           sender := .agent, timestamp := now }] ∧
    (sendMessageNC ud s now false r1).1.connectionStatus =
      ConnStatus.connected ∧
    (sendMessageNC ud s now false r1).2.2 = some 2000 ∧
    sendMessageNC ud s now false r1 = sendMessageNC ud s now false r2 := by
  unfold sendMessageNC
  rw [if_neg (by simp [hne, hld]), if_neg (by simp [hne, hld])]
  simp

/-- C10 witness: the simulated reply at a concrete state for two different
concrete responses. -/
theorem c10_nocors_simulated_reply_witness :
    trimJS sEx.inputMessage ≠ [] ∧ sEx.isLoading = false ∧
    ((sendMessageNC udEx sEx 5 false ⟨200, some outputHiBody⟩).1.messages =
      sEx.messages ++
        [{ id := 5, content := .jstr sEx.inputMessage, sender := .user,
           timestamp := 5 },
         { id := 5 + 1, content := .jstr simulatedReplyText,
           sender := .agent, timestamp := 5 }] ∧
    (sendMessageNC udEx sEx 5 false ⟨200, some outputHiBody⟩).1.connectionStatus =
      ConnStatus.connected ∧
    (sendMessageNC udEx sEx 5 false ⟨200, some outputHiBody⟩).2.2 = some 2000 ∧
    sendMessageNC udEx sEx 5 false ⟨200, some outputHiBody⟩ =
      sendMessageNC udEx sEx 5 false ⟨500, none⟩) :=
  ⟨by decide, rfl,
    c10_nocors_simulated_reply udEx sEx 5 ⟨200, some outputHiBody⟩
      ⟨500, none⟩ (by decide) rfl⟩

end Portal
